import Mathlib

/-!
Verification of the Model Risk Manager RAG pipeline (src/api/rag_system.py)
against its natural-language specification.

The Python class MRMRAGSystem is shallowly embedded: its mutable fields
(vector_store, retriever) become an explicit state record that every
operation takes and returns, and every external collaborator (file loader,
embedding service, vector-store backends, language model, tokenizer, clock)
becomes a field of an environment record, so that the control flow of the
source methods is reproduced verbatim over pure functions.  Python
exceptions raised by collaborators are modelled with Except; a try/except
block in the source becomes an explicit match on the collaborator outcome,
with the state accumulated so far returned on the error branch.
-/

namespace MRM

/-- A LangChain document: page text plus source metadata (file, page).
Corresponds to langchain_core.documents.Document as used by the source. -/
structure Document where
  page_content : String
  source : String
  page : Nat
deriving DecidableEq

/-- The characters Python str.isspace holds of, which are exactly the
characters an argument-less str.strip removes: TAB through CR (0x09-0x0D),
the separator controls FS GS RS US (0x1C-0x1F), SPACE (0x20), NEL (0x85),
NBSP (0xA0), OGHAM SPACE MARK (0x1680), the Zs range U+2000-U+200A, LINE
SEPARATOR (U+2028), PARAGRAPH SEPARATOR (U+2029), NARROW NO-BREAK SPACE
(U+202F), MEDIUM MATHEMATICAL SPACE (U+205F) and IDEOGRAPHIC SPACE
(U+3000). -/
def isPyWhitespace (c : Char) : Bool :=
  (9 ≤ c.toNat && c.toNat ≤ 13) || (28 ≤ c.toNat && c.toNat ≤ 32) ||
  c.toNat = 133 || c.toNat = 160 || c.toNat = 5760 ||
  (8192 ≤ c.toNat && c.toNat ≤ 8202) || c.toNat = 8232 || c.toNat = 8233 ||
  c.toNat = 8239 || c.toNat = 8287 || c.toNat = 12288

/-- Shallow embedding of Python str.strip(): remove leading and trailing
whitespace characters. -/
def pyStrip (s : String) : String :=
  String.mk (((s.data.dropWhile isPyWhitespace).reverse.dropWhile isPyWhitespace).reverse)

/-- The fixed sentinel context produced by _contextualize_query when no
documents were retrieved (rag_system.py line 111). -/
def sentinelContext : String := "No relevant documents found."

/-- The fixed refusal message returned by _generate_answer when the context
is missing or equals the sentinel (rag_system.py lines 128-130). -/
def refusalMessage : String :=
  "I apologize, but I can only answer questions related to Model Risk Management (MRM) based on the documents I have access to. Your question appears to be outside the scope of my MRM knowledge base. Please ask a question specifically about Model Risk Management, model validation, risk governance, regulatory compliance (SR 11-7, Basel III, CCAR/DFAST), or other MRM-related topics that are covered in my document collection."

/-- The prompt built by _generate_answer (rag_system.py lines 132-161): an
f-string with the context and the user question interpolated. -/
def mkPrompt (query context : String) : String :=
  "\n            You are a specialized Model Risk Management (MRM) AI assistant. You can ONLY answer questions that are:\n            1. Directly related to Model Risk Management\n            2. Covered in the provided document context\n            3. About regulatory compliance (SR 11-7, Basel III, CCAR/DFAST, etc.)\n            4. Related to model validation, governance, or risk assessment\n            5. About MRM frameworks, policies, or procedures\n\n            CRITICAL RULES:\n            - If the question is NOT about MRM or NOT covered in the context, respond with: \"I can only answer questions related to Model Risk Management based on my available documents. Please ask a question about MRM topics, model validation, risk governance, or regulatory compliance.\"\n            - Only use information from the provided context\n            - Do not provide general knowledge outside the context\n            - Do not answer questions about other topics (coding, general AI, etc.)\n            - Be specific and reference the document content\n\n            Available Context from MRM Documents:\n            "
    ++ context
    ++ "\n\n            User Question: "
    ++ query
    ++ "\n\n            Instructions:\n            1. First, determine if this is an MRM-related question\n            2. Check if the context contains relevant information\n            3. If YES to both: Provide a detailed, professional MRM answer\n            4. If NO to either: Politely decline and redirect to MRM topics\n            5. Always cite specific information from the context when possible\n            6. Use professional MRM terminology and frameworks\n\n            Answer:\n            "

/-- Embedding of _generate_answer (rag_system.py lines 121-167).  The llm
argument is the external ChatOpenAI model: it maps the prompt to either a
completion or an exception message.  The source guard is
    if not state.context or state.context.strip() == "No relevant documents found."
so an empty context, or any context whose stripped form equals the
sentinel, short-circuits to the refusal without calling the model; any
other context is answered by the model, and a model exception is converted
into an error-carrying answer string. -/
def generate_answer (llm : String → Except String String) (query context : String) : String :=
  if context = "" ∨ pyStrip context = sentinelContext then
    refusalMessage
  else
    match llm (mkPrompt query context) with
    | Except.ok ans => ans
    | Except.error e => "Error generating response: " ++ e

/-- Python-style str.join over a list (sep.join(parts)). -/
def joinStrings (sep : String) : List String → String
  | [] => ""
  | [s] => s
  | s :: rest => s ++ sep ++ joinStrings sep rest

/-- Embedding of _contextualize_query (rag_system.py lines 106-119): empty
document list gives the sentinel; otherwise the first at most 5 documents
are labelled "Document i+1:" (enumerate starts at 0) with a trailing
newline each, and joined with a newline. -/
def contextualize_query (documents : List Document) : String :=
  if documents.isEmpty then
    sentinelContext
  else
    joinStrings "\n"
      (((documents.take 5).enum).map
        (fun p => "Document " ++ toString (p.1 + 1) ++ ":\n" ++ p.2.page_content ++ "\n"))

/-- Split a character list on each occurrence of a non-empty separator,
dropping the separator (Python str.split semantics).  Fuel-based so that
the definition is structurally recursive and kernel-evaluable; the fuel is
instantiated with the length of the input, which bounds the number of
steps. -/
def splitGo (sep : List Char) : Nat → List Char → List Char → List (List Char)
  | _, [], acc => [acc.reverse]
  | 0, cs, acc => [acc.reverse ++ cs]
  | fuel + 1, c :: cs, acc =>
    if sep.isPrefixOf (c :: cs) then
      acc.reverse :: splitGo sep fuel (List.drop (sep.length - 1) cs) []
    else
      splitGo sep fuel cs (c :: acc)

/-- Split a string on a non-empty separator string. -/
def splitOnSep (sep : String) (text : String) : List String :=
  (splitGo sep.data text.data.length text.data []).map String.mk

/-- Modelled from the spec: the RecursiveCharacterTextSplitter library code
is not part of this repository.  Splitting a text by one separator of the
priority list: the empty separator means hard character splitting, any
other separator is split on and dropped. -/
def splitPieces (sep : String) (text : String) : List String :=
  if sep = "" then text.data.map (fun c => String.singleton c)
  else splitOnSep sep text

/-- Total measured length of a list of pieces joined by a separator of the
given measured length: sum of piece lengths plus one separator between
consecutive pieces. -/
def sumLen (lenFn : String → Nat) (sepLen : Nat) : List String → Nat
  | [] => 0
  | [s] => lenFn s
  | s :: rest => lenFn s + sepLen + sumLen lenFn sepLen rest

/-- Modelled from the spec: when a chunk is flushed by the merger, the
trailing pieces whose total measured length fits within the configured
overlap are carried into the next chunk.  The input list is the current
chunk in reverse order, so the carried pieces are an initial segment. -/
def takeOverlap (lenFn : String → Nat) : Nat → List String → List String
  | _, [] => []
  | budget, s :: rest =>
    if lenFn s ≤ budget then s :: takeOverlap lenFn (budget - lenFn s) rest
    else []

/-- Modelled from the spec: greedy merging of small pieces into chunks of
measured length at most the chunk size, joined by the separator, with the
configured overlap carried between consecutive chunks.  The second list
argument is the chunk under construction, in reverse order. -/
def mergeGo (lenFn : String → Nat) (sep : String) (cs co : Nat) :
    List String → List String → List String
  | [], cur => if cur.isEmpty then [] else [joinStrings sep cur.reverse]
  | p :: ps, cur =>
    if cur.isEmpty then
      mergeGo lenFn sep cs co ps [p]
    else if sumLen lenFn (lenFn sep) cur + lenFn sep + lenFn p ≤ cs then
      mergeGo lenFn sep cs co ps (p :: cur)
    else
      joinStrings sep cur.reverse :: mergeGo lenFn sep cs co ps (p :: takeOverlap lenFn co cur)

/-- Modelled from the spec: merge a run of in-bound pieces into chunks. -/
def mergeSplits (lenFn : String → Nat) (sep : String) (cs co : Nat)
    (pieces : List String) : List String :=
  mergeGo lenFn sep cs co pieces []

/-- Modelled from the spec: walk the pieces obtained from one separator;
maximal runs of pieces within the size bound are merged greedily, and each
oversized piece is split further by the recursion over the remaining
separators.  The accumulator holds the current run of in-bound pieces in
reverse order. -/
def splitRun (lenFn : String → Nat) (sep : String) (cs co : Nat)
    (recur : String → List String) : List String → List String → List String
  | [], acc => if acc.isEmpty then [] else mergeSplits lenFn sep cs co acc.reverse
  | p :: ps, acc =>
    if lenFn p < cs then
      splitRun lenFn sep cs co recur ps (p :: acc)
    else
      (if acc.isEmpty then [] else mergeSplits lenFn sep cs co acc.reverse)
        ++ recur p ++ splitRun lenFn sep cs co recur ps []

/-- Modelled from the spec: recursive split of a text over a priority list
of separators (paragraph break, line break, space, empty string).  The
earliest separator is tried first; pieces still over the size bound are
split with the remaining separators; an exhausted separator list returns
the text as a single piece (last-resort hard remainder). -/
def recSplitText (lenFn : String → Nat) (cs co : Nat) : List String → String → List String
  | [], text => [text]
  | sep :: rest, text =>
    splitRun lenFn sep cs co (fun t => recSplitText lenFn cs co rest t)
      (splitPieces sep text) []

/-- Embedding of chunk_documents (rag_system.py lines 202-230): split each
document with the recursive splitter over the fixed separator list, each
produced chunk inheriting the document metadata.  The token-measuring
function (tiktoken in the source) is injected as lenFn.  The source wraps
the call in try/except returning the empty list on error; the embedded
splitter is total, and the source returns the empty chunk list on the
empty-input error path as well, so the embedding returns the splitter
output directly. -/
def chunk_documents (lenFn : String → Nat) (documents : List Document)
    (chunk_size chunk_overlap : Nat) : List Document :=
  (documents.map (fun d =>
    (recSplitText lenFn chunk_size chunk_overlap ["\n\n", "\n", " ", ""] d.page_content).map
      (fun t => { d with page_content := t }))).flatten

/-- Which backend created a vector store (Qdrant.from_documents versus
FAISS.from_documents). -/
inductive StoreBackend where
  | qdrant : StoreBackend
  | faiss : StoreBackend
deriving DecidableEq

/-- A vector store: the backend that created it and the chunks indexed in
it.  Embedding vectors are abstract — only the indexed chunks and the
backend identity are observable to the claims. -/
structure VectorStore where
  backend : StoreBackend
  chunks : List Document
deriving DecidableEq

/-- A ContextualCompressionRetriever over a vector store with the fixed
similarity search_kwargs k (always 8 in the source).  The LLM-backed
compressor is part of the external retrieval behaviour in Env. -/
structure Retriever where
  store : VectorStore
  k : Nat
deriving DecidableEq

/-- The mutable fields of MRMRAGSystem: self.vector_store and
self.retriever, both initially None. -/
structure SysState where
  vector_store : Option VectorStore
  retriever : Option Retriever
deriving DecidableEq

/-- The metadata mapping attached to the pipeline state: the keys that the
source ever writes (error, retrieved_count, timestamp), absent keys being
none. -/
structure Metadata where
  error : Option String
  retrieved_count : Option Nat
  timestamp : Option String
deriving DecidableEq

/-- The empty metadata mapping. -/
def emptyMetadata : Metadata := ⟨none, none, none⟩

/-- The external world of MRMRAGSystem: every collaborator the source
calls.  Except.error models a raised Python exception. -/
structure Env where
  /-- Token counting function (tiktoken for gpt-4o in the source). -/
  lenFn : String → Nat
  /-- PyMuPDFLoader.load on one explicit file path. -/
  loadPDF : String → Except String (List Document)
  /-- Whether the configured docs directory exists. -/
  docsDirExists : Bool
  /-- DirectoryLoader.load over the docs directory. -/
  loadDir : Except String (List Document)
  /-- The PDF files found by glob in the docs directory. -/
  pdfGlob : List String
  /-- Whether vector_store_path/qdrant_db exists on disk. -/
  qdrantExists : Bool
  /-- Whether vector_store_path/faiss_index exists on disk. -/
  faissExists : Bool
  /-- Outcome of constructing Qdrant over the persisted collection. -/
  openQdrant : Except String VectorStore
  /-- Outcome of FAISS.load_local on the persisted index. -/
  openFaiss : Except String VectorStore
  /-- Exception raised by Qdrant.from_documents, if any. -/
  qdrantCreateErr : List Document → Option String
  /-- Exception raised by FAISS.from_documents, if any. -/
  faissCreateErr : List Document → Option String
  /-- Whether FAISS save_local succeeds after creation. -/
  faissSaveOk : Bool
  /-- retriever.get_relevant_documents: compression-filtered similarity
  search through the given retriever. -/
  retrieve : Retriever → String → Except String (List Document)
  /-- llm.invoke on a single human message, returning the completion. -/
  llm : String → Except String String
  /-- datetime.now().isoformat(). -/
  now : String

/-- Embedding of _retrieve_documents (rag_system.py lines 86-104), source
name with a leading underscore.  With no retriever the node returns an
empty document list and an error-carrying metadata mapping; otherwise the
retrieval outcome is returned, an exception being caught and converted
into error metadata. -/
def retrieve_documents (env : Env) (st : SysState) (query : String) :
    List Document × Metadata :=
  match st.retriever with
  | none => ([], ⟨some "No retriever initialized", none, none⟩)
  | some r =>
    match env.retrieve r query with
    | Except.ok docs => (docs, ⟨none, some docs.length, some env.now⟩)
    | Except.error e => ([], ⟨some e, none, none⟩)

/-- True exactly when the string lowercases to something ending in
".pdf" — the filter file_path.lower().endswith applied by load_documents. -/
def lowerEndsWithPdf (p : String) : Bool :=
  List.isSuffixOf ['.', 'p', 'd', 'f'] (p.data.map Char.toLower)

/-- The directory branch of load_documents: documents stay empty when the
docs directory does not exist or the directory loader raises. -/
def loadFromDir (env : Env) : List Document :=
  if env.docsDirExists then
    match env.loadDir with
    | Except.ok ds => ds
    | Except.error _ => []
  else []

/-- Embedding of load_documents (rag_system.py lines 169-200).  A present,
non-empty file_paths list (Python truthiness) selects the explicit-files
branch: paths are filtered to PDFs, and a file whose loader raises is
skipped.  Otherwise all PDFs are loaded from the docs directory. -/
def load_documents (env : Env) (file_paths : Option (List String)) : List Document :=
  match file_paths with
  | some fps =>
    if fps.isEmpty then loadFromDir env
    else
      ((fps.filter lowerEndsWithPdf).map (fun p =>
        match env.loadPDF p with
        | Except.ok ds => ds
        | Except.error _ => [])).flatten
  | none => loadFromDir env

/-- Embedding of create_vector_store (rag_system.py lines 232-269).  The
try block first dispatches on store_type: "qdrant" and "faiss" build a
fresh store over the chunks (FAISS additionally persisting it), any other
value leaves self.vector_store untouched.  The retriever is then built
over self.vector_store with k equal to 8; when self.vector_store is still
None that attribute access raises, the exception is caught, and False is
returned with the state accumulated so far. -/
def create_vector_store (env : Env) (st : SysState) (chunks : List Document)
    (store_type : String) : Bool × SysState :=
  let attempt : SysState × Option String :=
    if store_type = "qdrant" then
      match env.qdrantCreateErr chunks with
      | some e => (st, some e)
      | none => ({ st with vector_store := some ⟨StoreBackend.qdrant, chunks⟩ }, none)
    else if store_type = "faiss" then
      match env.faissCreateErr chunks with
      | some e => (st, some e)
      | none =>
        let st1 : SysState := { st with vector_store := some ⟨StoreBackend.faiss, chunks⟩ }
        if env.faissSaveOk then (st1, none) else (st1, some "save_local raised")
    else (st, none)
  match attempt with
  | (st1, some _) => (false, st1)
  | (st1, none) =>
    match st1.vector_store with
    | some vs => (true, { st1 with retriever := some ⟨vs, 8⟩ })
    | none => (false, st1)

/-- Embedding of load_existing_vector_store (rag_system.py lines 271-310).
The try block opens the persisted index for the selected backend only when
its path exists; an exception from the backend constructor is caught and
False returned with the state accumulated so far.  The source then tests
self.vector_store — which may still hold a store from an earlier
operation — and installs a retriever over whatever store is current,
returning True; only a missing store yields False. -/
def load_existing_vector_store (env : Env) (st : SysState) (store_type : String) :
    Bool × SysState :=
  let attempt : SysState × Option String :=
    if store_type = "qdrant" then
      if env.qdrantExists then
        match env.openQdrant with
        | Except.ok vs => ({ st with vector_store := some vs }, none)
        | Except.error e => (st, some e)
      else (st, none)
    else if store_type = "faiss" then
      if env.faissExists then
        match env.openFaiss with
        | Except.ok vs => ({ st with vector_store := some vs }, none)
        | Except.error e => (st, some e)
      else (st, none)
    else (st, none)
  match attempt with
  | (st1, some _) => (false, st1)
  | (st1, none) =>
    match st1.vector_store with
    | some vs => (true, { st1 with retriever := some ⟨vs, 8⟩ })
    | none => (false, st1)

/-- Embedding of process_documents (rag_system.py lines 312-345): load,
chunk, then create the vector store, aborting with False on an empty
result of either of the first two stages.  The source calls
chunk_documents(documents, chunk_size) without a chunk_overlap argument,
so the parameter takes its default value 0. -/
def process_documents (env : Env) (st : SysState) (file_paths : Option (List String))
    (chunk_size : Nat) (store_type : String) : Bool × SysState :=
  let documents := load_documents env file_paths
  if documents.isEmpty then (false, st)
  else
    let chunks := chunk_documents env.lenFn documents chunk_size 0
    if chunks.isEmpty then (false, st)
    else create_vector_store env st chunks store_type

/-- The same pipeline as process_documents but with the chunk overlap an
explicit argument, used to state that the public operation always runs the
chunker at overlap zero. -/
def process_documents_overlap (env : Env) (st : SysState)
    (file_paths : Option (List String)) (chunk_size chunk_overlap : Nat)
    (store_type : String) : Bool × SysState :=
  let documents := load_documents env file_paths
  if documents.isEmpty then (false, st)
  else
    let chunks := chunk_documents env.lenFn documents chunk_size chunk_overlap
    if chunks.isEmpty then (false, st)
    else create_vector_store env st chunks store_type

/-- The per-query pipeline state threaded through the LangGraph workflow
(rag_system.py lines 61-68). -/
structure RAGState where
  query : String
  documents : List Document
  context : String
  answer : String
  metadata : Metadata
deriving DecidableEq

/-- Embedding of the compiled workflow (rag_system.py lines 56-84): the
strictly linear retrieve → contextualize → generate flow, the keys
returned by each node merged into the state. -/
def run_workflow (env : Env) (st : SysState) (question : String) : RAGState :=
  let s0 : RAGState := ⟨question, [], "", "", emptyMetadata⟩
  let rd := retrieve_documents env st s0.query
  let s1 : RAGState := { s0 with documents := rd.1, metadata := rd.2 }
  let s2 : RAGState := { s1 with context := contextualize_query s1.documents }
  { s2 with answer := generate_answer env.llm s2.query s2.context }

/-- The result shape of MRMRAGSystem.query. -/
structure QueryResult where
  answer : String
  context : String
  documents_retrieved : Nat
  metadata : Metadata
  timestamp : String
deriving DecidableEq

/-- Embedding of query (rag_system.py lines 347-380): run the workflow on
a fresh state and package answer, context, document count, metadata and a
timestamp.  Every stage catches its own exceptions, so the outer
try/except error branch of the source is unreachable in the embedding. -/
def query (env : Env) (st : SysState) (question : String) : QueryResult :=
  let result := run_workflow env st question
  ⟨result.answer, result.context, result.documents.length, result.metadata, env.now⟩

/-- The result shape of get_system_info. -/
structure SystemInfo where
  docs_directory : String
  vector_store_path : String
  vector_store_type : String
  retriever_initialized : Bool
  embedding_model : String
  llm_model : String
  pdf_files_count : Option Nat
  pdf_files : Option (List String)
deriving DecidableEq

/-- Embedding of get_system_info (rag_system.py lines 382-406): the
vector_store_type field is the literal "qdrant" whenever self.vector_store
is set — regardless of the backend that created it — and "none"
otherwise; the PDF listing fields are only added when the docs directory
exists. -/
def get_system_info (env : Env) (st : SysState) (docs_dir vsp : String) : SystemInfo :=
  ⟨docs_dir, vsp,
    if st.vector_store.isSome then "qdrant" else "none",
    st.retriever.isSome,
    "text-embedding-3-small", "gpt-4o-mini",
    if env.docsDirExists then some env.pdfGlob.length else none,
    if env.docsDirExists then some env.pdfGlob else none⟩

/-- Specification-side label for one context entry: the 1-based ordinal
followed by the document text. -/
def specLabel (n : Nat) (d : Document) : String :=
  "Document " ++ toString n ++ ":\n" ++ d.page_content

/-- Specification-side context entries for a document list, labelled with
consecutive 1-based ordinals starting at n. -/
def specBodiesFrom : Nat → List Document → List String
  | _, [] => []
  | n, d :: ds => specLabel n d :: specBodiesFrom (n + 1) ds

/-- Whether a persisted index exists at the configured path for the given
backend (the filesystem checks made by load_existing_vector_store). -/
def persistedExists (env : Env) (store_type : String) : Bool :=
  if store_type = "qdrant" then env.qdrantExists
  else if store_type = "faiss" then env.faissExists
  else false

/-- Outcome of opening the persisted index for the given backend. -/
def openOutcome (env : Env) (store_type : String) : Except String VectorStore :=
  if store_type = "qdrant" then env.openQdrant else env.openFaiss

/-- A concrete environment in which nothing is on disk: no docs directory,
no loadable file, no persisted index, and failing store creation; the
model returns a canned completion. -/
def emptyEnv : Env :=
  ⟨String.length, fun _ => Except.error "missing file", false, Except.ok [], [],
   false, false, Except.error "no persisted index", Except.error "no persisted index",
   fun _ => some "creation failed", fun _ => some "creation failed", true,
   fun _ _ => Except.ok [], fun _ => Except.ok "CANNED MODEL ANSWER",
   "2026-01-01T00:00:00"⟩

/-- A concrete environment whose docs directory holds one loadable page. -/
def envOneDoc : Env :=
  { emptyEnv with
      docsDirExists := true,
      loadDir := Except.ok [⟨"hello world", "a.pdf", 1⟩] }

/-- A concrete vector store left over from an earlier processing run. -/
def vsOld : VectorStore := ⟨StoreBackend.qdrant, [⟨"old chunk", "old.pdf", 1⟩]⟩

/-- A concrete store created by the FAISS backend. -/
def vsFaiss : VectorStore := ⟨StoreBackend.faiss, [⟨"faiss chunk", "b.pdf", 2⟩]⟩

/-- The freshly initialized system state: no store, no retriever. -/
def stNone : SysState := ⟨none, none⟩

/-- A system state still holding a store from an earlier run. -/
def stStale : SysState := ⟨some vsOld, none⟩

/-- A system state whose active store was created by the FAISS backend. -/
def stFaiss : SysState := ⟨some vsFaiss, none⟩

/-! Helper lemmas shared by the claim theorems. -/

theorem strAppend_assoc : ∀ (a b c : String), a ++ b ++ c = a ++ (b ++ c)
  | ⟨as⟩, ⟨bs⟩, ⟨cs⟩ => congrArg String.mk (List.append_assoc as bs cs)

theorem pyStrip_sentinel : pyStrip sentinelContext = sentinelContext := by decide

theorem generate_answer_sentinel (llm : String → Except String String) (q : String) :
    generate_answer llm q sentinelContext = refusalMessage := by
  unfold generate_answer
  rw [if_pos (Or.inr pyStrip_sentinel)]

theorem enum_map_label (l : List Document) (n : Nat) :
    (l.enumFrom n).map
        (fun p => "Document " ++ toString (p.1 + 1) ++ ":\n" ++ p.2.page_content ++ "\n")
      = (specBodiesFrom (n + 1) l).map (fun s => s ++ "\n") := by
  induction l generalizing n with
  | nil => rfl
  | cons d ds ih =>
    simp only [List.enumFrom_cons, List.map_cons, specBodiesFrom, specLabel, ih]

theorem join_map_newline (l : List String) (hl : l ≠ []) :
    joinStrings "\n" (l.map (fun s => s ++ "\n")) = joinStrings "\n\n" l ++ "\n" := by
  induction l with
  | nil => exact absurd rfl hl
  | cons s rest ih =>
    cases rest with
    | nil => rfl
    | cons t ts =>
      have ih2 := ih (by simp)
      simp only [List.map_cons] at ih2 ⊢
      show s ++ "\n" ++ "\n" ++ joinStrings "\n" ((t :: ts).map (fun s => s ++ "\n"))
        = s ++ "\n\n" ++ joinStrings "\n\n" (t :: ts) ++ "\n"
      rw [List.map_cons, ih2]
      simp only [strAppend_assoc]
      rw [← strAppend_assoc "\n" "\n" (joinStrings "\n\n" (t :: ts) ++ "\n")]
      rfl

/-! Claim theorems. -/

/-- C1 counterexample: the context consisting of the sentinel surrounded
by extra whitespace is not equal to the sentinel under an exact match, yet
generate returns the fixed refusal message and ignores the language model
entirely (the same refusal results whether the model would answer or
raise), so the claimed whitespace-sensitive gate and the claimed model
invocation on non-sentinel contexts both fail. -/
theorem c1_counterexample :
    ("  No relevant documents found.  " : String) ≠ sentinelContext ∧
    generate_answer (fun _ => Except.ok "CANNED MODEL ANSWER") "q"
        "  No relevant documents found.  " = refusalMessage ∧
    generate_answer (fun _ => Except.error "boom") "q"
        "  No relevant documents found.  " = refusalMessage ∧
    refusalMessage ≠ "CANNED MODEL ANSWER" :=
  ⟨by decide, rfl, rfl, by decide⟩

/-- C1 (amended): generate returns the fixed refusal message without
consulting the language model exactly when the context is empty or its
whitespace-stripped form equals the sentinel; for every other context the
answer is the model completion on the constructed prompt (a model
exception being converted into an error-carrying answer string). -/
theorem c1_generate_gate (llm : String → Except String String) (q ctx : String) :
    (ctx = "" ∨ pyStrip ctx = sentinelContext →
        generate_answer llm q ctx = refusalMessage) ∧
    (¬(ctx = "" ∨ pyStrip ctx = sentinelContext) →
        generate_answer llm q ctx =
          match llm (mkPrompt q ctx) with
          | Except.ok a => a
          | Except.error e => "Error generating response: " ++ e) := by
  constructor
  · intro h
    unfold generate_answer
    rw [if_pos h]
  · intro h
    unfold generate_answer
    rw [if_neg h]

/-- C1 witness: at the sentinel context the refusal is returned, and at an
ordinary context the canned model completion is returned. -/
theorem c1_generate_gate_witness :
    generate_answer (fun _ => Except.ok "CANNED MODEL ANSWER") "q" sentinelContext
        = refusalMessage ∧
    generate_answer (fun _ => Except.ok "CANNED MODEL ANSWER") "q" "What is model risk?"
        = "CANNED MODEL ANSWER" := by
  constructor
  · exact (c1_generate_gate (fun _ => Except.ok "CANNED MODEL ANSWER") "q"
      sentinelContext).1 (Or.inr pyStrip_sentinel)
  · exact (c1_generate_gate (fun _ => Except.ok "CANNED MODEL ANSWER") "q"
      "What is model risk?").2 (by decide)

/-- C2: whenever a query result reports zero retrieved documents, its
context is the fixed sentinel string and its answer is the fixed refusal
message, for any query text, environment and system state. -/
theorem c2_zero_docs_sentinel (env : Env) (st : SysState) (q : String)
    (h : (query env st q).documents_retrieved = 0) :
    (query env st q).context = sentinelContext ∧
    (query env st q).answer = refusalMessage := by
  have hd : (retrieve_documents env st q).1 = [] := List.length_eq_zero.mp h
  constructor
  · show contextualize_query (retrieve_documents env st q).1 = sentinelContext
    rw [hd]
    rfl
  · show generate_answer env.llm q (contextualize_query (retrieve_documents env st q).1)
      = refusalMessage
    rw [hd]
    exact generate_answer_sentinel env.llm q

/-- C2 witness: querying the freshly initialized system retrieves zero
documents, and the result carries the sentinel context and the refusal. -/
theorem c2_zero_docs_sentinel_witness :
    (query emptyEnv stNone "What is the capital of France?").context = sentinelContext ∧
    (query emptyEnv stNone "What is the capital of France?").answer = refusalMessage :=
  c2_zero_docs_sentinel emptyEnv stNone "What is the capital of France?" rfl

/-- C3 counterexample: with no persisted index on disk for either backend
but a vector store still set from an earlier operation, loading the
existing store returns success, not the claimed failure. -/
theorem c3_counterexample :
    emptyEnv.qdrantExists = false ∧ emptyEnv.faissExists = false ∧
    (load_existing_vector_store emptyEnv stStale "qdrant").1 = true :=
  ⟨rfl, rfl, rfl⟩

/-- C3 (amended): for both backends, when no persisted index exists at the
configured path, load_existing_vector_store returns failure (without
raising) only if no vector store is already set; if a store from an
earlier operation is still set it returns success and installs a
retriever over that stale store; and when opening the persisted index
succeeds it installs a retriever over the opened index. -/
theorem c3_load_existing (env : Env) (st : SysState) (ty : String)
    (hty : ty = "qdrant" ∨ ty = "faiss") :
    (persistedExists env ty = false → st.vector_store = none →
        load_existing_vector_store env st ty = (false, st)) ∧
    (persistedExists env ty = false → ∀ vs, st.vector_store = some vs →
        load_existing_vector_store env st ty
          = (true, { st with retriever := some ⟨vs, 8⟩ })) ∧
    (persistedExists env ty = true → ∀ vs, openOutcome env ty = Except.ok vs →
        load_existing_vector_store env st ty
          = (true, { st with vector_store := some vs, retriever := some ⟨vs, 8⟩ })) := by
  rcases hty with h | h <;> subst h <;>
    refine ⟨fun hp hv => ?_, fun hp vs hv => ?_, fun hp vs ho => ?_⟩ <;>
    simp_all [persistedExists, openOutcome, load_existing_vector_store]

/-- C3 witness: loading with the FAISS backend on the empty system with
nothing persisted fails and leaves the state unchanged. -/
theorem c3_load_existing_witness :
    load_existing_vector_store emptyEnv stNone "faiss" = (false, stNone) :=
  (c3_load_existing emptyEnv stNone "faiss" (Or.inr rfl)).1 rfl rfl

/-- C4: whenever zero documents are loaded, process_documents returns
failure and returns the state unchanged, so the previously active
retriever and vector store fields are preserved. -/
theorem c4_process_zero_docs (env : Env) (st : SysState) (fps : Option (List String))
    (cs : Nat) (ty : String) (h : load_documents env fps = []) :
    process_documents env st fps cs ty = (false, st) := by
  simp [process_documents, h]

/-- C4 witness: processing with an absent docs directory loads nothing,
fails, and preserves the stale store and retriever fields. -/
theorem c4_process_zero_docs_witness :
    process_documents emptyEnv stStale none 750 "qdrant" = (false, stStale) :=
  c4_process_zero_docs emptyEnv stStale none 750 "qdrant" rfl

/-- C5: a retrieve with no active retriever returns the empty document
list together with metadata whose error field is populated, and the
embedded stage is total, so no exception escapes. -/
theorem c5_retrieve_no_retriever (env : Env) (st : SysState) (q : String)
    (h : st.retriever = none) :
    (retrieve_documents env st q).1 = [] ∧
    (retrieve_documents env st q).2.error = some "No retriever initialized" := by
  simp [retrieve_documents, h]

/-- C5 witness: the freshly initialized system answers a retrieve with the
empty list and the error metadata. -/
theorem c5_retrieve_no_retriever_witness :
    (retrieve_documents emptyEnv stNone "q").1 = [] ∧
    (retrieve_documents emptyEnv stNone "q").2.error = some "No retriever initialized" :=
  c5_retrieve_no_retriever emptyEnv stNone "q" rfl

/-- C6: on an empty document list the contextualize stage produces the
fixed sentinel; on a non-empty list it produces the entries for at most
the first 5 documents, each labelled with its 1-based ordinal, separated
by blank lines (each entry carries a trailing newline and entries are
joined by a further newline). -/
theorem c6_contextualize (docs : List Document) :
    (docs = [] → contextualize_query docs = sentinelContext) ∧
    (docs ≠ [] →
      contextualize_query docs
        = joinStrings "\n\n" (specBodiesFrom 1 (docs.take 5)) ++ "\n") := by
  constructor
  · intro h
    subst h
    rfl
  · intro h
    unfold contextualize_query
    rw [if_neg (by simp [List.isEmpty_iff, h])]
    rw [show (docs.take 5).enum = (docs.take 5).enumFrom 0 from rfl]
    rw [enum_map_label]
    have h5 : specBodiesFrom 1 (docs.take 5) ≠ [] := by
      cases docs with
      | nil => exact absurd rfl h
      | cons d ds => simp [specBodiesFrom]
    exact join_map_newline _ h5

/-- C6 witness: two documents produce the two labelled entries separated
by a blank line, and the empty list produces the sentinel. -/
theorem c6_contextualize_witness :
    contextualize_query [⟨"alpha", "a.pdf", 1⟩, ⟨"beta", "b.pdf", 2⟩]
        = "Document 1:\nalpha\n\nDocument 2:\nbeta\n" ∧
    contextualize_query [] = sentinelContext := by
  constructor
  · have h := (c6_contextualize [⟨"alpha", "a.pdf", 1⟩, ⟨"beta", "b.pdf", 2⟩]).2
      (by decide)
    rw [h]
    rfl
  · exact (c6_contextualize []).1 rfl

/-- C7: chunking is deterministic — two runs of the chunker on the same
documents with the same chunk size, overlap and injected length function
yield the same chunk sequence. -/
theorem c7_chunk_deterministic (lenFn : String → Nat) (docs1 docs2 : List Document)
    (cs1 cs2 co1 co2 : Nat) (hd : docs1 = docs2) (hs : cs1 = cs2) (ho : co1 = co2) :
    chunk_documents lenFn docs1 cs1 co1 = chunk_documents lenFn docs2 cs2 co2 := by
  subst hd
  subst hs
  subst ho
  rfl

/-- C7 witness: determinism applied at a concrete document and concrete
parameters. -/
theorem c7_chunk_deterministic_witness :
    chunk_documents String.length [⟨"model risk review", "a.pdf", 1⟩] 750 0
      = chunk_documents String.length [⟨"model risk review", "a.pdf", 1⟩] 750 0 :=
  c7_chunk_deterministic String.length _ _ _ _ _ _ rfl rfl rfl

/-- C8 counterexample: a call to process_documents with the unknown store
type "weaviate", an active store from a previous run, and zero loadable
documents returns failure, contradicting the claim that every such call
with an active store returns success. -/
theorem c8_counterexample :
    ("weaviate" : String) ≠ "qdrant" ∧ ("weaviate" : String) ≠ "faiss" ∧
    stStale.vector_store = some vsOld ∧
    load_documents emptyEnv none = [] ∧
    process_documents emptyEnv stStale none 750 "weaviate" = (false, stStale) :=
  ⟨by decide, by decide, rfl, rfl, rfl⟩

/-- C8 (amended): for a call to process_documents with a store type
outside the two supported backends in which at least one document is
loaded and at least one chunk is produced: with an active vector store
from a previous run the call returns success and installs a retriever
over that old store while leaving the store field unchanged (no new index
is created); with no active store it returns failure. -/
theorem c8_unknown_store_type (env : Env) (st : SysState) (fps : Option (List String))
    (cs : Nat) (ty : String) (h1 : ty ≠ "qdrant") (h2 : ty ≠ "faiss")
    (hdocs : load_documents env fps ≠ [])
    (hchunks : chunk_documents env.lenFn (load_documents env fps) cs 0 ≠ []) :
    (∀ vs, st.vector_store = some vs →
        process_documents env st fps cs ty
          = (true, { st with retriever := some ⟨vs, 8⟩ })) ∧
    (st.vector_store = none →
        process_documents env st fps cs ty = (false, st)) := by
  constructor
  · intro vs hv
    simp [process_documents, create_vector_store, h1, h2, hv, hdocs, hchunks,
      List.isEmpty_iff]
  · intro hv
    simp [process_documents, create_vector_store, h1, h2, hv, hdocs, hchunks,
      List.isEmpty_iff]

/-- C8 witness: with one loadable document and the unknown store type
"weaviate", the stale store is kept and a retriever over it installed. -/
theorem c8_unknown_store_type_witness :
    process_documents envOneDoc stStale none 750 "weaviate"
      = (true, ⟨some vsOld, some ⟨vsOld, 8⟩⟩) :=
  (c8_unknown_store_type envOneDoc stStale none 750 "weaviate"
    (by decide) (by decide) (by decide) (by decide)).1 vsOld rfl

/-- C9: get_system_info reports the vector_store_type field as the
literal "qdrant" whenever any vector store is active — the backend that
created the store is not consulted — and as "none" exactly when no store
is active. -/
theorem c9_system_info (env : Env) (st : SysState) (dd vsp : String) :
    (∀ vs, st.vector_store = some vs →
        (get_system_info env st dd vsp).vector_store_type = "qdrant") ∧
    ((get_system_info env st dd vsp).vector_store_type = "none" ↔
        st.vector_store = none) := by
  constructor
  · intro vs h
    simp [get_system_info, h]
  · cases h : st.vector_store <;> simp [get_system_info, h]

/-- C9 witness: a store created by the FAISS backend is reported as
"qdrant". -/
theorem c9_system_info_witness :
    (get_system_info emptyEnv stFaiss "docs" "vector_storage").vector_store_type
      = "qdrant" :=
  (c9_system_info emptyEnv stFaiss "docs" "vector_storage").1 vsFaiss rfl

/-- C10: the public process_documents pipeline coincides with the
explicit-overlap pipeline at chunk overlap zero on every input — the
source passes only chunk_size through, so the chunker always runs with
its default overlap of zero. -/
theorem c10_overlap_zero (env : Env) (st : SysState) (fps : Option (List String))
    (cs : Nat) (ty : String) :
    process_documents env st fps cs ty = process_documents_overlap env st fps cs 0 ty :=
  rfl

end MRM
